import Mathlib

/-!
# Mining API handlers (`api/miner.go`)

A shallow embedding of the request handlers of `api/miner.go`:
`getBlockTemplate`, `handleGbtRequest`, `handleGbtProposal`, `getWork`,
`getWorkJSON`, `submitWork`, `submitWorkJSON`, `GetWork`, `GetWorkJSON`,
`SubmitWork`, `setMining`, `startMining`, `stopMining` and `submitBlock`.

The handlers are methods on `*API` and talk to four collaborators that live
outside the file (`a.miningPool`, `a.chain`, `a.wallet.AccountMgr`,
`a.cpuMiner`).  The collaborators are taken as a parameter: a record of
transition functions over an arbitrary node state `σ`.  Every call a handler
makes on a collaborator is appended to a trace, so that "is called", "is not
called" and "is called once" are statements about the trace.

Go values are rendered as follows.
* `uint64` is `Nat`; the handlers only copy these fields, no arithmetic is done.
* a pointer `*T` that a request can leave out is `Option T` (`nil` is `none`).
* a `(value, error)` result of a collaborator is `Except Err value`, the usual
  Go convention that the value is meaningful exactly when the error is `nil`.
* a handler that can dereference `nil` returns `Except GoPanic _`.
-/

namespace Miner

/-! ## Data model -/

/-- Modelled from the spec: `bc.Hash` is declared outside `api/miner.go`.  The
handlers only copy and forward hashes, so a hash is represented by the natural
number it encodes. -/
structure Hash where
  value : Nat
  deriving DecidableEq, Repr

/-- Modelled from the spec: `types.BlockCommitment` is declared outside
`api/miner.go`; the spec calls it a merkle-style commitment to transactions
and state. -/
structure BlockCommitment where
  TransactionsMerkleRoot : Hash
  TransactionStatusHash : Hash
  deriving DecidableEq, Repr

/-- The seven fields of `types.BlockHeader` that `api/miner.go` reads and
writes (the struct literal in `submitWorkJSON`).  The commitment is held by
value. -/
structure BlockHeader where
  Version : Nat
  Height : Nat
  PreviousBlockHash : Hash
  Timestamp : Nat
  Nonce : Nat
  Bits : Nat
  BlockCommitment : BlockCommitment
  deriving DecidableEq, Repr

/-- The struct `BlockHeaderJSON`: as `BlockHeader`, but the commitment is a
pointer, hence possibly `nil`. -/
structure BlockHeaderJSON where
  Version : Nat
  Height : Nat
  PreviousBlockHash : Hash
  Timestamp : Nat
  Nonce : Nat
  Bits : Nat
  BlockCommitment : Option BlockCommitment
  deriving DecidableEq, Repr

/-- Modelled from the spec: `mining.BlockTemplate` is declared outside
`api/miner.go`; the spec describes it as a block header plus the auxiliary
data needed to assemble a full block. -/
structure BlockTemplate where
  Header : BlockHeader
  Aux : List Nat
  deriving DecidableEq, Repr

/-- The dynamic type of the `interface{}` fields `sigoplimit` and `sizelimit`
("can be int64 or bool"), `absent` when the field is left out. -/
inductive Tweak where
  | absent
  | int (n : Int)
  | bool (b : Bool)
  deriving DecidableEq, Repr

/-- The struct `GbtReq`. -/
structure GbtReq where
  Capabilities : List String
  Mode : String
  LongPollID : String
  SigOpLimit : Tweak
  SizeLimit : Tweak
  MaxVersion : Nat
  Target : String
  Data : String
  WorkID : String
  deriving DecidableEq, Repr

/-- The struct `SubmitWorkReq`. -/
structure SubmitWorkReq where
  BlockHeader : Option BlockHeader
  deriving DecidableEq, Repr

/-- The struct `SubmitWorkJSONReq`. -/
structure SubmitWorkJSONReq where
  BlockHeader : Option BlockHeaderJSON
  deriving DecidableEq, Repr

/-- The struct `GetWorkResp`. -/
structure GetWorkResp where
  BlockHeader : BlockHeader
  Seed : Hash
  deriving DecidableEq, Repr

/-- The struct `GetWorkJSONResp`. -/
structure GetWorkJSONResp where
  BlockHeader : BlockHeaderJSON
  Seed : Hash
  deriving DecidableEq, Repr

/-- The argument of `setMining`. -/
structure SetMiningReq where
  IsMining : Bool
  deriving DecidableEq, Repr

/-- A Go `error`, identified by its message (`errors.New msg`). -/
structure Err where
  msg : String
  deriving DecidableEq, Repr

/-- The run-time panic of Go on reading through a `nil` pointer. -/
inductive GoPanic where
  | nilDereference
  deriving DecidableEq, Repr

/-- The values the handlers of this file pass to `NewSuccessResponse`. -/
inductive Payload where
  | bool (b : Bool)
  | str (s : String)
  | work (w : GetWorkResp)
  | workJSON (w : GetWorkJSONResp)
  | template (t : BlockTemplate)
  deriving DecidableEq, Repr

/-- Modelled from the spec: `Response`, `NewSuccessResponse` and
`NewErrorResponse` are declared outside `api/miner.go`; the spec describes the
response as a tagged success/error envelope: a success payload, or a
structured error with a human-readable message. -/
inductive Response where
  | success (data : Payload)
  | error (err : Err)
  deriving DecidableEq, Repr

/-- The constructor `NewSuccessResponse`. -/
def NewSuccessResponse (data : Payload) : Response := Response.success data

/-- The constructor `NewErrorResponse`. -/
def NewErrorResponse (err : Err) : Response := Response.error err

/-! ## Collaborators and the trace of calls -/

/-- One call on a collaborator, with its arguments. -/
inductive Event where
  | PoolGetWork
  | PoolSubmitWork (bh : Option BlockHeader)
  | PoolSubmitBlock (b : BlockTemplate)
  | PoolGetBlockTemplate
  | ChainCalcNextSeed (prev : Hash)
  | GetMiningAddress
  | MinerStart
  | MinerStop
  | IsMining
  deriving DecidableEq, Repr

/-- The collaborators of the handlers, as transition functions on a node
state `σ`:
`a.miningPool.GetWork`, `a.miningPool.SubmitWork`, `a.miningPool.SubmitBlock`,
`a.miningPool.GetBlockTemplate`, `a.chain.CalcNextSeed`,
`a.wallet.AccountMgr.GetMiningAddress` (the address itself is discarded by
`setMining`, so only the error is kept), `a.cpuMiner.Start`,
`a.cpuMiner.Stop` and `a.IsMining`. -/
structure Collaborators (σ : Type) where
  PoolGetWork : σ → Except Err BlockHeader × σ
  PoolSubmitWork : Option BlockHeader → σ → Option Err × σ
  PoolSubmitBlock : BlockTemplate → σ → σ
  PoolGetBlockTemplate : σ → Option BlockTemplate × σ
  ChainCalcNextSeed : Hash → σ → Except Err Hash × σ
  GetMiningAddress : σ → Option Err × σ
  MinerStart : σ → σ
  MinerStop : σ → σ
  IsMining : σ → Bool × σ

/-- The node state together with the calls made on the collaborators so far,
oldest first. -/
structure World (σ : Type) where
  state : σ
  trace : List Event

variable {σ : Type}

/-- Call `a.miningPool.GetWork()`. -/
def callPoolGetWork (c : Collaborators σ) (w : World σ) : Except Err BlockHeader × World σ :=
  let r := c.PoolGetWork w.state
  (r.1, ⟨r.2, w.trace ++ [Event.PoolGetWork]⟩)

/-- Call `a.miningPool.SubmitWork(bh)`. -/
def callPoolSubmitWork (c : Collaborators σ) (bh : Option BlockHeader) (w : World σ) :
    Option Err × World σ :=
  let r := c.PoolSubmitWork bh w.state
  (r.1, ⟨r.2, w.trace ++ [Event.PoolSubmitWork bh]⟩)

/-- Call `a.miningPool.SubmitBlock(b)`. -/
def callPoolSubmitBlock (c : Collaborators σ) (b : BlockTemplate) (w : World σ) : World σ :=
  ⟨c.PoolSubmitBlock b w.state, w.trace ++ [Event.PoolSubmitBlock b]⟩

/-- Call `a.miningPool.GetBlockTemplate()`. -/
def callPoolGetBlockTemplate (c : Collaborators σ) (w : World σ) :
    Option BlockTemplate × World σ :=
  let r := c.PoolGetBlockTemplate w.state
  (r.1, ⟨r.2, w.trace ++ [Event.PoolGetBlockTemplate]⟩)

/-- Call `a.chain.CalcNextSeed(prev)`. -/
def callChainCalcNextSeed (c : Collaborators σ) (prev : Hash) (w : World σ) :
    Except Err Hash × World σ :=
  let r := c.ChainCalcNextSeed prev w.state
  (r.1, ⟨r.2, w.trace ++ [Event.ChainCalcNextSeed prev]⟩)

/-- Call `a.wallet.AccountMgr.GetMiningAddress()`. -/
def callGetMiningAddress (c : Collaborators σ) (w : World σ) : Option Err × World σ :=
  let r := c.GetMiningAddress w.state
  (r.1, ⟨r.2, w.trace ++ [Event.GetMiningAddress]⟩)

/-- Call `a.cpuMiner.Start()`. -/
def callMinerStart (c : Collaborators σ) (w : World σ) : World σ :=
  ⟨c.MinerStart w.state, w.trace ++ [Event.MinerStart]⟩

/-- Call `a.cpuMiner.Stop()`. -/
def callMinerStop (c : Collaborators σ) (w : World σ) : World σ :=
  ⟨c.MinerStop w.state, w.trace ++ [Event.MinerStop]⟩

/-- Call `a.IsMining()`. -/
def callIsMining (c : Collaborators σ) (w : World σ) : Bool × World σ :=
  let r := c.IsMining w.state
  (r.1, ⟨r.2, w.trace ++ [Event.IsMining]⟩)

/-! ## Wire conversions -/

/-- The struct literal `&BlockHeaderJSON{...}` of `GetWorkJSON`: six fields
are copied and the commitment is passed by address (`&bh.BlockCommitment`). -/
def headerToJSON (bh : BlockHeader) : BlockHeaderJSON :=
  { Version := bh.Version
    Height := bh.Height
    PreviousBlockHash := bh.PreviousBlockHash
    Timestamp := bh.Timestamp
    Nonce := bh.Nonce
    Bits := bh.Bits
    BlockCommitment := some bh.BlockCommitment }

/-- The struct literal `&types.BlockHeader{...}` of `submitWorkJSON`.  The
field reads go through `req.BlockHeader`, and the last one through
`*req.BlockHeader.BlockCommitment`: either pointer being `nil` is a run-time
panic. -/
def headerOfJSON (p : Option BlockHeaderJSON) : Except GoPanic BlockHeader :=
  match p with
  | none => Except.error GoPanic.nilDereference
  | some j =>
    match j.BlockCommitment with
    | none => Except.error GoPanic.nilDereference
    | some commitment =>
      Except.ok
        { Version := j.Version
          Height := j.Height
          PreviousBlockHash := j.PreviousBlockHash
          Timestamp := j.Timestamp
          Nonce := j.Nonce
          Bits := j.Bits
          BlockCommitment := commitment }

/-! ## Handlers -/

/-- The loop of `handleGbtRequest` over `ins.Capabilities`; the result is the
pair `(hasCoinbaseValue, hasCoinbaseTxn)`, both `false` before the loop. -/
def capabilityFlags (capabilities : List String) : Bool × Bool :=
  capabilities.foldl
    (fun flags capability =>
      if capability = "coinbasetxn" then (flags.1, true)
      else if capability = "coinbasevalue" then (true, flags.2)
      else flags)
    (false, false)

/-- The local `useCoinbaseValue` of `handleGbtRequest` after the loop:
`true` by default, `false` if `hasCoinbaseTxn && !hasCoinbaseValue`. -/
def useCoinbaseValue (capabilities : List String) : Bool :=
  let flags := capabilityFlags capabilities
  if flags.2 && !flags.1 then false else true

/-- The handler `handleGbtRequest`.  The flag `useCoinbaseValue` is computed
and then only tested by an `if` with an empty body. -/
def handleGbtRequest (c : Collaborators σ) (ins : GbtReq) (w : World σ) : Response × World σ :=
  let _useCoinbaseValue := useCoinbaseValue ins.Capabilities
  if ins.LongPollID ≠ "" then
    (NewErrorResponse ⟨"long poll not supported yet."⟩, w)
  else
    let r := callPoolGetBlockTemplate c w
    match r.1 with
    | none => (NewErrorResponse ⟨"block template not ready yet."⟩, r.2)
    | some template => (NewSuccessResponse (Payload.template template), r.2)

/-- The handler `handleGbtProposal`. -/
def handleGbtProposal (_c : Collaborators σ) (_ins : GbtReq) (w : World σ) : Response × World σ :=
  (NewErrorResponse ⟨"handleGbtProposal() not implemented yet."⟩, w)

/-- The handler `getBlockTemplate`. -/
def getBlockTemplate (c : Collaborators σ) (ins : GbtReq) (w : World σ) : Response × World σ :=
  let mode := if ins.Mode ≠ "" then ins.Mode else "template"
  if mode = "template" then handleGbtRequest c ins w
  else if mode = "proposal" then handleGbtProposal c ins w
  else (NewErrorResponse ⟨"Invalid mode."⟩, w)

/-- The method `SubmitWork`. -/
def SubmitWork (c : Collaborators σ) (bh : Option BlockHeader) (w : World σ) :
    Option Err × World σ :=
  callPoolSubmitWork c bh w

/-- The handler `submitWork`. -/
def submitWork (c : Collaborators σ) (req : SubmitWorkReq) (w : World σ) : Response × World σ :=
  let r := SubmitWork c req.BlockHeader w
  match r.1 with
  | some err => (NewErrorResponse err, r.2)
  | none => (NewSuccessResponse (Payload.bool true), r.2)

/-- The handler `submitWorkJSON`. -/
def submitWorkJSON (c : Collaborators σ) (req : SubmitWorkJSONReq) (w : World σ) :
    Except GoPanic (Response × World σ) :=
  match headerOfJSON req.BlockHeader with
  | Except.error p => Except.error p
  | Except.ok bh =>
    let r := SubmitWork c (some bh) w
    match r.1 with
    | some err => Except.ok (NewErrorResponse err, r.2)
    | none => Except.ok (NewSuccessResponse (Payload.bool true), r.2)

/-- The method `GetWork`. -/
def GetWork (c : Collaborators σ) (w : World σ) : Except Err GetWorkResp × World σ :=
  let r := callPoolGetWork c w
  match r.1 with
  | Except.error err => (Except.error err, r.2)
  | Except.ok bh =>
    let q := callChainCalcNextSeed c bh.PreviousBlockHash r.2
    match q.1 with
    | Except.error err => (Except.error err, q.2)
    | Except.ok seed => (Except.ok { BlockHeader := bh, Seed := seed }, q.2)

/-- The method `GetWorkJSON`. -/
def GetWorkJSON (c : Collaborators σ) (w : World σ) : Except Err GetWorkJSONResp × World σ :=
  let r := callPoolGetWork c w
  match r.1 with
  | Except.error err => (Except.error err, r.2)
  | Except.ok bh =>
    let q := callChainCalcNextSeed c bh.PreviousBlockHash r.2
    match q.1 with
    | Except.error err => (Except.error err, q.2)
    | Except.ok seed => (Except.ok { BlockHeader := headerToJSON bh, Seed := seed }, q.2)

/-- The handler `getWork`. -/
def getWork (c : Collaborators σ) (w : World σ) : Response × World σ :=
  let r := GetWork c w
  match r.1 with
  | Except.error err => (NewErrorResponse err, r.2)
  | Except.ok work => (NewSuccessResponse (Payload.work work), r.2)

/-- The handler `getWorkJSON`. -/
def getWorkJSON (c : Collaborators σ) (w : World σ) : Response × World σ :=
  let r := GetWorkJSON c w
  match r.1 with
  | Except.error err => (NewErrorResponse err, r.2)
  | Except.ok work => (NewSuccessResponse (Payload.workJSON work), r.2)

/-- The handler `startMining`. -/
def startMining (c : Collaborators σ) (w : World σ) : Response × World σ :=
  let w1 := callMinerStart c w
  let r := callIsMining c w1
  if !r.1 then (NewErrorResponse ⟨"Failed to start mining"⟩, r.2)
  else (NewSuccessResponse (Payload.str ""), r.2)

/-- The handler `stopMining`. -/
def stopMining (c : Collaborators σ) (w : World σ) : Response × World σ :=
  let w1 := callMinerStop c w
  let r := callIsMining c w1
  if r.1 then (NewErrorResponse ⟨"Failed to stop mining"⟩, r.2)
  else (NewSuccessResponse (Payload.str ""), r.2)

/-- The handler `setMining`. -/
def setMining (c : Collaborators σ) (req : SetMiningReq) (w : World σ) : Response × World σ :=
  if req.IsMining then
    let r := callGetMiningAddress c w
    match r.1 with
    | some _ => (NewErrorResponse ⟨"Mining address does not exist"⟩, r.2)
    | none => startMining c r.2
  else stopMining c w

/-- The handler `submitBlock`; the statement after the first `return` is
never reached. -/
def submitBlock (c : Collaborators σ) (b : BlockTemplate) (w : World σ) : Response × World σ :=
  (NewSuccessResponse (Payload.str ""), callPoolSubmitBlock c b w)

/-! ## A small node used to evaluate the handlers on concrete inputs -/

/-- A node state with just enough in it to drive every collaborator. -/
structure DemoNode where
  work : Option BlockHeader
  template : Option BlockTemplate
  hasAddress : Bool
  mining : Bool
  canMine : Bool
  submitted : List BlockHeader
  deriving DecidableEq, Repr

/-- Collaborators over `DemoNode`: the pool hands out `work` and `template`,
accepts a submitted header exactly when it extends the same previous block as
`work`, the seed of a hash is its successor, the miner starts only when
`canMine` holds. -/
def demoCollaborators : Collaborators DemoNode where
  PoolGetWork s :=
    match s.work with
    | some bh => (Except.ok bh, s)
    | none => (Except.error ⟨"no block is ready for mining"⟩, s)
  PoolSubmitWork bh s :=
    match bh, s.work with
    | some h, some cur =>
      if h.PreviousBlockHash = cur.PreviousBlockHash then
        (none, { s with submitted := s.submitted ++ [h] })
      else (some ⟨"stale work"⟩, s)
    | _, _ => (some ⟨"no work was handed out"⟩, s)
  PoolSubmitBlock _ s := s
  PoolGetBlockTemplate s := (s.template, s)
  ChainCalcNextSeed prev s :=
    if prev.value = 0 then (Except.error ⟨"no seed before genesis"⟩, s)
    else (Except.ok ⟨prev.value + 1⟩, s)
  GetMiningAddress s := (if s.hasAddress then none else some ⟨"address not found"⟩, s)
  MinerStart s := { s with mining := s.canMine }
  MinerStop s := { s with mining := false }
  IsMining s := (s.mining, s)

/-- A header on top of block `7`. -/
def demoHeader : BlockHeader :=
  { Version := 1, Height := 8, PreviousBlockHash := ⟨7⟩, Timestamp := 1500000000,
    Nonce := 42, Bits := 2161727821137910632,
    BlockCommitment := { TransactionsMerkleRoot := ⟨11⟩, TransactionStatusHash := ⟨13⟩ } }

/-- A template around `demoHeader`. -/
def demoTemplate : BlockTemplate := { Header := demoHeader, Aux := [1, 2, 3] }

/-- A node that has work and a template, an address, and a miner that starts. -/
def demoNode : DemoNode :=
  { work := some demoHeader, template := some demoTemplate, hasAddress := true,
    mining := false, canMine := true, submitted := [] }

/-- The world of `demoNode` before any call. -/
def demoWorld : World DemoNode := { state := demoNode, trace := [] }

/-- A request with every optional field left out. -/
def emptyGbtReq : GbtReq :=
  { Capabilities := [], Mode := "", LongPollID := "", SigOpLimit := Tweak.absent,
    SizeLimit := Tweak.absent, MaxVersion := 0, Target := "", Data := "", WorkID := "" }

/-! ## Shared lemmas -/

/-- The capability loop started from any pair of flags: each flag ends up set
exactly when it was set before or its capability string occurs in the list. -/
theorem capabilityLoop_from (l : List String) (a b : Bool) :
    l.foldl
        (fun (flags : Bool × Bool) capability =>
          if capability = "coinbasetxn" then (flags.1, true)
          else if capability = "coinbasevalue" then (true, flags.2)
          else flags)
        (a, b)
      = (a || decide ("coinbasevalue" ∈ l), b || decide ("coinbasetxn" ∈ l)) := by
  induction l generalizing a b with
  | nil => simp
  | cons x xs ih =>
    rw [List.foldl_cons]
    by_cases hx : x = "coinbasetxn"
    · subst hx
      simp only [if_true]
      rw [ih]
      simp
    · by_cases hy : x = "coinbasevalue"
      · subst hy
        simp only [if_neg hx, if_true]
        rw [ih]
        simp
      · simp only [if_neg hx, if_neg hy]
        rw [ih]
        have h1 : ¬ "coinbasetxn" = x := fun h => hx h.symm
        have h2 : ¬ "coinbasevalue" = x := fun h => hy h.symm
        simp [List.mem_cons, h1, h2]

/-- The flags after the loop are the two membership tests. -/
theorem capabilityFlags_eq (l : List String) :
    capabilityFlags l = (decide ("coinbasevalue" ∈ l), decide ("coinbasetxn" ∈ l)) := by
  unfold capabilityFlags
  rw [capabilityLoop_from]
  simp

/-- The flag `useCoinbaseValue` as a membership test. -/
theorem useCoinbaseValue_eq (l : List String) :
    useCoinbaseValue l = !(decide ("coinbasetxn" ∈ l) && !decide ("coinbasevalue" ∈ l)) := by
  unfold useCoinbaseValue
  rw [capabilityFlags_eq]
  by_cases h1 : "coinbasetxn" ∈ l <;> by_cases h2 : "coinbasevalue" ∈ l <;> simp [h1, h2]

/-- Two lists that agree on which of the two known capabilities they contain
give the same flag. -/
theorem useCoinbaseValue_congr (l1 l2 : List String)
    (htxn : "coinbasetxn" ∈ l1 ↔ "coinbasetxn" ∈ l2)
    (hval : "coinbasevalue" ∈ l1 ↔ "coinbasevalue" ∈ l2) :
    useCoinbaseValue l1 = useCoinbaseValue l2 := by
  rw [useCoinbaseValue_eq, useCoinbaseValue_eq]
  simp [htxn, hval]

/-! ## Wire formats -/

/-- C1: JSON header round trip.  For every block header `h`, the
`BlockHeaderJSON` that `GetWorkJSON` builds from `h`, converted back by the
field copy of `submitWorkJSON`, is a header equal to `h` (hence equal on each
of the seven fields); whenever `GetWorkJSON` succeeds on a pool header `h`,
the header it returns is that JSON form and converts back to `h`; and
submitting that JSON form hands the pool the same header as submitting `h`. -/
theorem headerJSON_round_trip (h : BlockHeader) :
    headerOfJSON (some (headerToJSON h)) = Except.ok h ∧
    (∀ g, headerOfJSON (some (headerToJSON h)) = Except.ok g →
      g.Version = h.Version ∧ g.Height = h.Height ∧
      g.PreviousBlockHash = h.PreviousBlockHash ∧ g.Timestamp = h.Timestamp ∧
      g.Nonce = h.Nonce ∧ g.Bits = h.Bits ∧ g.BlockCommitment = h.BlockCommitment) ∧
    (∀ (c : Collaborators σ) (w w2 : World σ) (r : GetWorkJSONResp),
      (c.PoolGetWork w.state).1 = Except.ok h → GetWorkJSON c w = (Except.ok r, w2) →
      r.BlockHeader = headerToJSON h ∧ headerOfJSON (some r.BlockHeader) = Except.ok h) ∧
    (∀ (c : Collaborators σ) (w : World σ),
      submitWorkJSON c ⟨some (headerToJSON h)⟩ w = Except.ok (submitWork c ⟨some h⟩ w)) := by
  have hrt : headerOfJSON (some (headerToJSON h)) = Except.ok h := rfl
  refine ⟨hrt, ?_, ?_, ?_⟩
  · intro g hg
    rw [hrt] at hg
    cases hg
    exact ⟨rfl, rfl, rfl, rfl, rfl, rfl, rfl⟩
  · intro c w w2 r hpool hget
    have hr : r.BlockHeader = headerToJSON h := by
      unfold GetWorkJSON callPoolGetWork at hget
      simp only [hpool] at hget
      split at hget
      · simp at hget
      · simp only [Prod.mk.injEq, Except.ok.injEq] at hget
        rw [← hget.1]
    exact ⟨hr, by rw [hr]; exact hrt⟩
  · intro c w
    unfold submitWorkJSON submitWork
    simp only [hrt]
    split <;> rfl

/-- The node hands out `demoHeader`, `GetWorkJSON` returns its JSON form, and
that form converts back to `demoHeader`. -/
theorem headerJSON_round_trip_witness :
    (demoCollaborators.PoolGetWork demoWorld.state).1 = Except.ok demoHeader ∧
    (GetWorkJSON demoCollaborators demoWorld).1
      = Except.ok { BlockHeader := headerToJSON demoHeader, Seed := ⟨8⟩ } ∧
    headerOfJSON (some (headerToJSON demoHeader)) = Except.ok demoHeader ∧
    headerOfJSON
        (some (GetWorkJSONResp.BlockHeader
          { BlockHeader := headerToJSON demoHeader, Seed := ⟨8⟩ }))
      = Except.ok demoHeader :=
  ⟨rfl, rfl, (@headerJSON_round_trip DemoNode demoHeader).1,
    ((@headerJSON_round_trip DemoNode demoHeader).2.2.1 demoCollaborators demoWorld
      (GetWorkJSON demoCollaborators demoWorld).2
      { BlockHeader := headerToJSON demoHeader, Seed := ⟨8⟩ } rfl rfl).2⟩

/-- C2: `submitWorkJSON` on a request whose `block_header` is `nil`, or whose
`block_commitment` is `nil`, ends in a nil-dereference panic for every
collaborator and every node state, before the pool is reached; it returns a
response exactly when both pointers are set. -/
theorem submitWorkJSON_nil_panics (c : Collaborators σ) (w : World σ) :
    submitWorkJSON c ⟨none⟩ w = Except.error GoPanic.nilDereference ∧
    (∀ j : BlockHeaderJSON, j.BlockCommitment = none →
      submitWorkJSON c ⟨some j⟩ w = Except.error GoPanic.nilDereference) ∧
    (∀ req : SubmitWorkJSONReq,
      (∃ r, submitWorkJSON c req w = Except.ok r) ↔
        ∃ j commitment, req.BlockHeader = some j ∧ j.BlockCommitment = some commitment) := by
  refine ⟨rfl, ?_, ?_⟩
  · intro j hj
    unfold submitWorkJSON headerOfJSON
    simp [hj]
  · intro req
    constructor
    · rintro ⟨r, hr⟩
      unfold submitWorkJSON headerOfJSON at hr
      cases hb : req.BlockHeader with
      | none => simp [hb] at hr
      | some j =>
        cases hc : j.BlockCommitment with
        | none => simp [hb, hc] at hr
        | some commitment => exact ⟨j, commitment, rfl, hc⟩
    · rintro ⟨j, commitment, hb, hc⟩
      unfold submitWorkJSON headerOfJSON
      simp only [hb, hc]
      split <;> exact ⟨_, rfl⟩

/-- The JSON body with no `block_header`, and the one whose header has no
`block_commitment`, panic on the demo node. -/
theorem submitWorkJSON_nil_panics_witness :
    submitWorkJSON demoCollaborators ⟨none⟩ demoWorld = Except.error GoPanic.nilDereference ∧
    submitWorkJSON demoCollaborators
        ⟨some { headerToJSON demoHeader with BlockCommitment := none }⟩ demoWorld
      = Except.error GoPanic.nilDereference :=
  ⟨(submitWorkJSON_nil_panics demoCollaborators demoWorld).1,
    (submitWorkJSON_nil_panics demoCollaborators demoWorld).2.1 _ rfl⟩

/-! ## Request dispatch -/

/-- C3: `getBlockTemplate` answers with the error "Invalid mode." exactly when
the mode is non-empty and is neither "template" nor "proposal".  In that case
the world (node state and trace of collaborator calls) is left as it was, so
the pool is not consulted, and the answer is the answer of neither handler.
With an empty mode, or the mode "template", the result is that of
`handleGbtRequest`; with the mode "proposal", that of `handleGbtProposal`. -/
theorem getBlockTemplate_invalid_mode (c : Collaborators σ) (ins : GbtReq) (w : World σ) :
    ((getBlockTemplate c ins w).1 = NewErrorResponse ⟨"Invalid mode."⟩ ↔
      (ins.Mode ≠ "" ∧ ins.Mode ≠ "template" ∧ ins.Mode ≠ "proposal")) ∧
    ((ins.Mode ≠ "" ∧ ins.Mode ≠ "template" ∧ ins.Mode ≠ "proposal") →
      getBlockTemplate c ins w = (NewErrorResponse ⟨"Invalid mode."⟩, w) ∧
      (getBlockTemplate c ins w).2.trace = w.trace ∧
      (getBlockTemplate c ins w).1 ≠ (handleGbtRequest c ins w).1 ∧
      (getBlockTemplate c ins w).1 ≠ (handleGbtProposal c ins w).1) ∧
    (ins.Mode = "" → getBlockTemplate c ins w = handleGbtRequest c ins w) ∧
    (ins.Mode = "template" → getBlockTemplate c ins w = handleGbtRequest c ins w) ∧
    (ins.Mode = "proposal" → getBlockTemplate c ins w = handleGbtProposal c ins w) := by
  have hreq : (handleGbtRequest c ins w).1 ≠ NewErrorResponse ⟨"Invalid mode."⟩ := by
    unfold handleGbtRequest NewErrorResponse NewSuccessResponse
    simp only
    split
    · simp
    · split <;> simp
  have hprop : (handleGbtProposal c ins w).1 ≠ NewErrorResponse ⟨"Invalid mode."⟩ := by
    unfold handleGbtProposal NewErrorResponse
    simp
  have hempty : ins.Mode = "" → getBlockTemplate c ins w = handleGbtRequest c ins w := by
    intro h
    unfold getBlockTemplate
    simp [h]
  have htemplate : ins.Mode = "template" → getBlockTemplate c ins w = handleGbtRequest c ins w := by
    intro h
    unfold getBlockTemplate
    simp [h]
  have hproposal : ins.Mode = "proposal" → getBlockTemplate c ins w = handleGbtProposal c ins w := by
    intro h
    unfold getBlockTemplate
    simp [h]
  have hinvalid : (ins.Mode ≠ "" ∧ ins.Mode ≠ "template" ∧ ins.Mode ≠ "proposal") →
      getBlockTemplate c ins w = (NewErrorResponse ⟨"Invalid mode."⟩, w) := by
    rintro ⟨h0, h1, h2⟩
    unfold getBlockTemplate
    simp [h0, h1, h2]
  refine ⟨⟨?_, fun h => by rw [hinvalid h]⟩, ?_, hempty, htemplate, hproposal⟩
  · intro h
    refine ⟨?_, ?_, ?_⟩
    · intro h0
      rw [hempty h0] at h
      exact hreq h
    · intro h1
      rw [htemplate h1] at h
      exact hreq h
    · intro h2
      rw [hproposal h2] at h
      exact hprop h
  · intro h
    refine ⟨hinvalid h, by rw [hinvalid h], ?_, ?_⟩
    · rw [hinvalid h]
      exact fun e => hreq e.symm
    · rw [hinvalid h]
      exact fun e => hprop e.symm

/-- The mode "submit" is rejected on the demo node and leaves the world as it
was. -/
theorem getBlockTemplate_invalid_mode_witness :
    getBlockTemplate demoCollaborators { emptyGbtReq with Mode := "submit" } demoWorld
      = (NewErrorResponse ⟨"Invalid mode."⟩, demoWorld) :=
  ((getBlockTemplate_invalid_mode demoCollaborators
    { emptyGbtReq with Mode := "submit" } demoWorld).2.1
      ⟨by decide, by decide, by decide⟩).1

/-- C4: capability negotiation in `handleGbtRequest`.  The flag
`useCoinbaseValue` is `false` exactly when the capability list contains
"coinbasetxn" and does not contain "coinbasevalue", and `true` otherwise.  It
is the same for a reordered list, for the list without its duplicates, for
the list without its unknown strings, and for any two lists that contain the
same ones of the two known strings. -/
theorem useCoinbaseValue_spec (capabilities : List String) :
    (useCoinbaseValue capabilities = false ↔
      ("coinbasetxn" ∈ capabilities ∧ "coinbasevalue" ∉ capabilities)) ∧
    (useCoinbaseValue capabilities = true ↔
      ¬ ("coinbasetxn" ∈ capabilities ∧ "coinbasevalue" ∉ capabilities)) ∧
    (∀ other, capabilities.Perm other →
      useCoinbaseValue other = useCoinbaseValue capabilities) ∧
    useCoinbaseValue capabilities.dedup = useCoinbaseValue capabilities ∧
    useCoinbaseValue
        (capabilities.filter (fun s => s = "coinbasetxn" ∨ s = "coinbasevalue"))
      = useCoinbaseValue capabilities ∧
    (∀ other,
      ("coinbasetxn" ∈ other ↔ "coinbasetxn" ∈ capabilities) →
      ("coinbasevalue" ∈ other ↔ "coinbasevalue" ∈ capabilities) →
      useCoinbaseValue other = useCoinbaseValue capabilities) := by
  refine ⟨?_, ?_, ?_, ?_, ?_, ?_⟩
  · rw [useCoinbaseValue_eq]
    by_cases h1 : "coinbasetxn" ∈ capabilities <;>
      by_cases h2 : "coinbasevalue" ∈ capabilities <;> simp [h1, h2]
  · rw [useCoinbaseValue_eq]
    by_cases h1 : "coinbasetxn" ∈ capabilities <;>
      by_cases h2 : "coinbasevalue" ∈ capabilities <;> simp [h1, h2]
  · intro other hperm
    exact useCoinbaseValue_congr _ _ hperm.symm.mem_iff hperm.symm.mem_iff
  · exact useCoinbaseValue_congr _ _ List.mem_dedup List.mem_dedup
  · apply useCoinbaseValue_congr <;> simp [List.mem_filter]
  · intro other h1 h2
    exact useCoinbaseValue_congr _ _ h1 h2

/-- A list with "coinbasetxn" among unknown strings selects the full coinbase
transaction shape, in either order. -/
theorem useCoinbaseValue_spec_witness :
    useCoinbaseValue ["longpoll", "coinbasetxn", "workid"] = false ∧
    useCoinbaseValue ["coinbasetxn", "workid", "longpoll"]
      = useCoinbaseValue ["longpoll", "coinbasetxn", "workid"] :=
  ⟨(useCoinbaseValue_spec ["longpoll", "coinbasetxn", "workid"]).1.2 ⟨by decide, by decide⟩,
    (useCoinbaseValue_spec ["longpoll", "coinbasetxn", "workid"]).2.2.1
      ["coinbasetxn", "workid", "longpoll"] (by decide)⟩

/-! ## Long poll and proposal -/

/-- C5, as the spec states it, fails.  On the demo node, whose pool has the
template `demoTemplate`, a template-mode request with the long-poll id
"stale-id" gets the error "long poll not supported yet." and not the
template; and whatever string is taken as the identity of the current
template, it is false that every template-mode request with a non-empty,
different long-poll id gets the template. -/
theorem longpoll_immediate_return_fails :
    (demoCollaborators.PoolGetBlockTemplate demoWorld.state).1 = some demoTemplate ∧
    (getBlockTemplate demoCollaborators
        { emptyGbtReq with Mode := "template", LongPollID := "stale-id" } demoWorld).1
      = NewErrorResponse ⟨"long poll not supported yet."⟩ ∧
    (getBlockTemplate demoCollaborators
        { emptyGbtReq with Mode := "template", LongPollID := "stale-id" } demoWorld).1
      ≠ NewSuccessResponse (Payload.template demoTemplate) ∧
    ¬ ∃ identity : BlockTemplate → String,
        ∀ ins : GbtReq, ins.Mode = "template" → ins.LongPollID ≠ "" →
          ins.LongPollID ≠ identity demoTemplate →
          (getBlockTemplate demoCollaborators ins demoWorld).1
            = NewSuccessResponse (Payload.template demoTemplate) := by
  refine ⟨rfl, by decide, by decide, ?_⟩
  rintro ⟨identity, h⟩
  have hne : identity demoTemplate ++ "x" ≠ "" := by
    intro e
    have hl := congrArg String.length e
    simp [String.length_append] at hl
    exact absurd hl.2 (by decide)
  have hdiff : identity demoTemplate ++ "x" ≠ identity demoTemplate := by
    intro e
    have hl := congrArg String.length e
    simp [String.length_append] at hl
    exact absurd hl (by decide)
  have hbad := h { emptyGbtReq with Mode := "template", LongPollID := identity demoTemplate ++ "x" }
    rfl hne hdiff
  unfold getBlockTemplate handleGbtRequest NewErrorResponse NewSuccessResponse at hbad
  simp [hne] at hbad

/-- C5, amended: a template-mode `getBlockTemplate` request (mode empty or
"template") that carries a non-empty long-poll id returns at once with the
error "long poll not supported yet.", whatever template the pool holds: the
answer is never a template, and the world (node state and trace) is left as
it was, so the pool is not consulted. -/
theorem longpoll_not_supported (c : Collaborators σ) (ins : GbtReq) (w : World σ)
    (hmode : ins.Mode = "" ∨ ins.Mode = "template") (hid : ins.LongPollID ≠ "") :
    getBlockTemplate c ins w = (NewErrorResponse ⟨"long poll not supported yet."⟩, w) ∧
    (∀ t, (getBlockTemplate c ins w).1 ≠ NewSuccessResponse (Payload.template t)) ∧
    (getBlockTemplate c ins w).2.trace = w.trace := by
  have h : getBlockTemplate c ins w
      = (NewErrorResponse ⟨"long poll not supported yet."⟩, w) := by
    unfold getBlockTemplate handleGbtRequest
    rcases hmode with h0 | h1
    · simp [h0, hid]
    · simp [h1, hid]
  refine ⟨h, ?_, by rw [h]⟩
  intro t
  rw [h]
  simp [NewErrorResponse, NewSuccessResponse]

/-- The long-poll id "stale-id" on the demo node. -/
theorem longpoll_not_supported_witness :
    getBlockTemplate demoCollaborators
        { emptyGbtReq with Mode := "template", LongPollID := "stale-id" } demoWorld
      = (NewErrorResponse ⟨"long poll not supported yet."⟩, demoWorld) :=
  (longpoll_not_supported demoCollaborators
    { emptyGbtReq with Mode := "template", LongPollID := "stale-id" } demoWorld
    (Or.inr rfl) (by decide)).1

/-- C6: for every request with mode "proposal", the answer of
`getBlockTemplate` is the error of `handleGbtProposal`; it is no success
response at all, hence none carrying a block template; and the world is left
as it was: the node state is unchanged and no call on the pool (or on any
collaborator) is added to the trace. -/
theorem proposal_never_template (c : Collaborators σ) (ins : GbtReq) (w : World σ)
    (hmode : ins.Mode = "proposal") :
    getBlockTemplate c ins w
      = (NewErrorResponse ⟨"handleGbtProposal() not implemented yet."⟩, w) ∧
    (∀ data, (getBlockTemplate c ins w).1 ≠ NewSuccessResponse data) ∧
    (∀ t, (getBlockTemplate c ins w).1 ≠ NewSuccessResponse (Payload.template t)) ∧
    (getBlockTemplate c ins w).2.state = w.state ∧
    (getBlockTemplate c ins w).2.trace = w.trace ∧
    Event.PoolGetBlockTemplate ∉ (getBlockTemplate c ins w).2.trace.drop w.trace.length ∧
    (∀ e ∈ (getBlockTemplate c ins w).2.trace.drop w.trace.length,
      (∀ bh, e ≠ Event.PoolSubmitWork bh) ∧ (∀ b, e ≠ Event.PoolSubmitBlock b)) := by
  have h : getBlockTemplate c ins w
      = (NewErrorResponse ⟨"handleGbtProposal() not implemented yet."⟩, w) := by
    unfold getBlockTemplate handleGbtProposal
    simp [hmode]
  rw [h]
  refine ⟨rfl, ?_, ?_, rfl, rfl, ?_, ?_⟩
  · intro data
    simp [NewErrorResponse, NewSuccessResponse]
  · intro t
    simp [NewErrorResponse, NewSuccessResponse]
  · simp
  · simp

/-- A proposal on the demo node, whose pool does hold a template. -/
theorem proposal_never_template_witness :
    (demoCollaborators.PoolGetBlockTemplate demoWorld.state).1 = some demoTemplate ∧
    getBlockTemplate demoCollaborators
        { emptyGbtReq with Mode := "proposal", Data := "00ff" } demoWorld
      = (NewErrorResponse ⟨"handleGbtProposal() not implemented yet."⟩, demoWorld) :=
  ⟨rfl, (proposal_never_template demoCollaborators
    { emptyGbtReq with Mode := "proposal", Data := "00ff" } demoWorld rfl).1⟩

/-! ## Work units and submissions -/

/-- C7: work is the pool header plus the derived seed, in both wire formats.
In any node state: if `miningPool.GetWork` fails, `GetWork` and `GetWorkJSON`
return that error and no work unit, and `CalcNextSeed` is not called (the
trace gains the one call on the pool); if it returns a header and
`CalcNextSeed` on the `PreviousBlockHash` of that header fails, both return that
error and no work unit; if both succeed, `GetWork` returns the pool header
with the seed, and `GetWorkJSON` returns a header with the same seven field
values with the same seed.  Hence each succeeds exactly when both
collaborators do. -/
theorem getWork_pool_header_and_seed (c : Collaborators σ) (w : World σ) :
    (∀ err s1, c.PoolGetWork w.state = (Except.error err, s1) →
      GetWork c w = (Except.error err, ⟨s1, w.trace ++ [Event.PoolGetWork]⟩) ∧
      GetWorkJSON c w = (Except.error err, ⟨s1, w.trace ++ [Event.PoolGetWork]⟩)) ∧
    (∀ bh s1 err s2, c.PoolGetWork w.state = (Except.ok bh, s1) →
      c.ChainCalcNextSeed bh.PreviousBlockHash s1 = (Except.error err, s2) →
      GetWork c w = (Except.error err,
        ⟨s2, w.trace ++ [Event.PoolGetWork, Event.ChainCalcNextSeed bh.PreviousBlockHash]⟩) ∧
      GetWorkJSON c w = (Except.error err,
        ⟨s2, w.trace ++ [Event.PoolGetWork, Event.ChainCalcNextSeed bh.PreviousBlockHash]⟩)) ∧
    (∀ bh s1 seed s2, c.PoolGetWork w.state = (Except.ok bh, s1) →
      c.ChainCalcNextSeed bh.PreviousBlockHash s1 = (Except.ok seed, s2) →
      GetWork c w = (Except.ok { BlockHeader := bh, Seed := seed },
        ⟨s2, w.trace ++ [Event.PoolGetWork, Event.ChainCalcNextSeed bh.PreviousBlockHash]⟩) ∧
      (∃ j : BlockHeaderJSON,
        GetWorkJSON c w = (Except.ok { BlockHeader := j, Seed := seed },
          ⟨s2, w.trace ++ [Event.PoolGetWork, Event.ChainCalcNextSeed bh.PreviousBlockHash]⟩) ∧
        j.Version = bh.Version ∧ j.Height = bh.Height ∧
        j.PreviousBlockHash = bh.PreviousBlockHash ∧ j.Timestamp = bh.Timestamp ∧
        j.Nonce = bh.Nonce ∧ j.Bits = bh.Bits ∧
        j.BlockCommitment = some bh.BlockCommitment)) ∧
    ((∃ r, (GetWork c w).1 = Except.ok r) ↔
      ∃ bh seed, (c.PoolGetWork w.state).1 = Except.ok bh ∧
        (c.ChainCalcNextSeed bh.PreviousBlockHash (c.PoolGetWork w.state).2).1
          = Except.ok seed) ∧
    ((∃ r, (GetWorkJSON c w).1 = Except.ok r) ↔
      ∃ bh seed, (c.PoolGetWork w.state).1 = Except.ok bh ∧
        (c.ChainCalcNextSeed bh.PreviousBlockHash (c.PoolGetWork w.state).2).1
          = Except.ok seed) := by
  refine ⟨?_, ?_, ?_, ?_, ?_⟩
  · intro err s1 hp
    constructor
    · simp [GetWork, callPoolGetWork, hp]
    · simp [GetWorkJSON, callPoolGetWork, hp]
  · intro bh s1 err s2 hp hs
    constructor
    · simp [GetWork, callPoolGetWork, callChainCalcNextSeed, hp, hs]
    · simp [GetWorkJSON, callPoolGetWork, callChainCalcNextSeed, hp, hs]
  · intro bh s1 seed s2 hp hs
    constructor
    · simp [GetWork, callPoolGetWork, callChainCalcNextSeed, hp, hs]
    · refine ⟨headerToJSON bh, ?_, rfl, rfl, rfl, rfl, rfl, rfl, rfl⟩
      simp [GetWorkJSON, callPoolGetWork, callChainCalcNextSeed, hp, hs]
  · cases hp : c.PoolGetWork w.state with
    | mk r1 s1 =>
      cases r1 with
      | error err => simp [GetWork, callPoolGetWork, hp]
      | ok bh =>
        cases hs : c.ChainCalcNextSeed bh.PreviousBlockHash s1 with
        | mk r2 s2 =>
          cases r2 with
          | error err => simp [GetWork, callPoolGetWork, callChainCalcNextSeed, hp, hs]
          | ok seed => simp [GetWork, callPoolGetWork, callChainCalcNextSeed, hp, hs]
  · cases hp : c.PoolGetWork w.state with
    | mk r1 s1 =>
      cases r1 with
      | error err => simp [GetWorkJSON, callPoolGetWork, hp]
      | ok bh =>
        cases hs : c.ChainCalcNextSeed bh.PreviousBlockHash s1 with
        | mk r2 s2 =>
          cases r2 with
          | error err => simp [GetWorkJSON, callPoolGetWork, callChainCalcNextSeed, hp, hs]
          | ok seed => simp [GetWorkJSON, callPoolGetWork, callChainCalcNextSeed, hp, hs]

/-- On the demo node both calls return `demoHeader` with seed `8`; on a node
without work both return the error of the pool and the chain is not asked. -/
theorem getWork_pool_header_and_seed_witness :
    GetWork demoCollaborators demoWorld
      = (Except.ok { BlockHeader := demoHeader, Seed := ⟨8⟩ },
          ⟨demoNode, [Event.PoolGetWork, Event.ChainCalcNextSeed ⟨7⟩]⟩) ∧
    GetWork demoCollaborators ⟨{ demoNode with work := none }, []⟩
      = (Except.error ⟨"no block is ready for mining"⟩,
          ⟨{ demoNode with work := none }, [Event.PoolGetWork]⟩) :=
  ⟨((getWork_pool_header_and_seed demoCollaborators demoWorld).2.2.1
      demoHeader demoNode ⟨8⟩ demoNode rfl rfl).1,
    ((getWork_pool_header_and_seed demoCollaborators ⟨{ demoNode with work := none }, []⟩).1
      ⟨"no block is ready for mining"⟩ { demoNode with work := none } rfl).1⟩

/-- C8: the submission result is propagated verbatim in both wire formats.
For every header `h` and every JSON header `j` with the same seven field
values (commitment set), `submitWorkJSON` on `j` returns what `submitWork` on
`h` returns: response and world are equal.  The header `h` is passed to
`miningPool.SubmitWork` once (the trace gains that one call, the node state is
the state the pool leaves), and the response is the success response with
payload `true` exactly when the pool returned no error, otherwise the error
response built from the error of the pool. -/
theorem submitWork_formats_agree (c : Collaborators σ) (h : BlockHeader) (w : World σ) :
    (∀ j : BlockHeaderJSON,
      j.Version = h.Version → j.Height = h.Height →
      j.PreviousBlockHash = h.PreviousBlockHash → j.Timestamp = h.Timestamp →
      j.Nonce = h.Nonce → j.Bits = h.Bits → j.BlockCommitment = some h.BlockCommitment →
      submitWorkJSON c ⟨some j⟩ w = Except.ok (submitWork c ⟨some h⟩ w)) ∧
    (submitWork c ⟨some h⟩ w).2
      = ⟨(c.PoolSubmitWork (some h) w.state).2, w.trace ++ [Event.PoolSubmitWork (some h)]⟩ ∧
    ((submitWork c ⟨some h⟩ w).1 = NewSuccessResponse (Payload.bool true) ↔
      (c.PoolSubmitWork (some h) w.state).1 = none) ∧
    (∀ err, (c.PoolSubmitWork (some h) w.state).1 = some err →
      (submitWork c ⟨some h⟩ w).1 = NewErrorResponse err) := by
  refine ⟨?_, ?_, ?_, ?_⟩
  · intro j h1 h2 h3 h4 h5 h6 h7
    have hj : headerOfJSON (some j) = Except.ok h := by
      cases h with
      | mk v ht p t n b cm =>
        simp only at h1 h2 h3 h4 h5 h6 h7
        simp [headerOfJSON, h1, h2, h3, h4, h5, h6, h7]
    unfold submitWorkJSON submitWork
    simp only [hj]
    split <;> rfl
  · unfold submitWork SubmitWork callPoolSubmitWork
    simp only
    split <;> rfl
  · unfold submitWork SubmitWork callPoolSubmitWork NewSuccessResponse NewErrorResponse
    simp only
    cases hr : (c.PoolSubmitWork (some h) w.state).1 <;> simp
  · intro err herr
    unfold submitWork SubmitWork callPoolSubmitWork
    simp [herr]

/-- On the demo node `demoHeader` is accepted in both formats; a header on
another block is rejected with the error of the pool in both formats. -/
theorem submitWork_formats_agree_witness :
    submitWorkJSON demoCollaborators ⟨some (headerToJSON demoHeader)⟩ demoWorld
      = Except.ok (submitWork demoCollaborators ⟨some demoHeader⟩ demoWorld) ∧
    (submitWork demoCollaborators ⟨some demoHeader⟩ demoWorld).1
      = NewSuccessResponse (Payload.bool true) ∧
    (submitWork demoCollaborators
        ⟨some { demoHeader with PreviousBlockHash := ⟨6⟩ }⟩ demoWorld).1
      = NewErrorResponse ⟨"stale work"⟩ :=
  ⟨(submitWork_formats_agree demoCollaborators demoHeader demoWorld).1
      (headerToJSON demoHeader) rfl rfl rfl rfl rfl rfl rfl,
    (submitWork_formats_agree demoCollaborators demoHeader demoWorld).2.2.1.2 rfl,
    (submitWork_formats_agree demoCollaborators
      { demoHeader with PreviousBlockHash := ⟨6⟩ } demoWorld).2.2.2 ⟨"stale work"⟩ rfl⟩

/-! ## Template requests and the mining switch -/

/-- C9: for a request with an empty long-poll id, `handleGbtRequest` consults
`miningPool.GetBlockTemplate` once and returns the success response carrying
exactly the template it returned when there is one, and the error "block
template not ready yet." when it returned `nil`.  Two requests with an empty
long-poll id get the same result in the same world, whatever their
capabilities, sigoplimit, sizelimit, maxversion, target, data, workid (and
mode) are. -/
theorem handleGbtRequest_template (c : Collaborators σ) (ins : GbtReq) (w : World σ)
    (hid : ins.LongPollID = "") :
    (∀ t, (c.PoolGetBlockTemplate w.state).1 = some t →
      (handleGbtRequest c ins w).1 = NewSuccessResponse (Payload.template t)) ∧
    ((c.PoolGetBlockTemplate w.state).1 = none →
      (handleGbtRequest c ins w).1 = NewErrorResponse ⟨"block template not ready yet."⟩) ∧
    (handleGbtRequest c ins w).2
      = ⟨(c.PoolGetBlockTemplate w.state).2, w.trace ++ [Event.PoolGetBlockTemplate]⟩ ∧
    (∀ other : GbtReq, other.LongPollID = "" →
      handleGbtRequest c other w = handleGbtRequest c ins w) := by
  refine ⟨?_, ?_, ?_, ?_⟩
  · intro t ht
    simp [handleGbtRequest, callPoolGetBlockTemplate, hid, ht]
  · intro hnone
    simp [handleGbtRequest, callPoolGetBlockTemplate, hid, hnone]
  · unfold handleGbtRequest callPoolGetBlockTemplate
    simp only [hid, ne_eq, not_true_eq_false, if_false]
    split <;> rfl
  · intro other hother
    simp [handleGbtRequest, hid, hother]

/-- On the demo node the template of the pool is returned, also for a request
that differs in every field but the long-poll id; on a node without a
template the answer is the "not ready" error. -/
theorem handleGbtRequest_template_witness :
    (handleGbtRequest demoCollaborators emptyGbtReq demoWorld).1
      = NewSuccessResponse (Payload.template demoTemplate) ∧
    (handleGbtRequest demoCollaborators emptyGbtReq
        ⟨{ demoNode with template := none }, []⟩).1
      = NewErrorResponse ⟨"block template not ready yet."⟩ ∧
    handleGbtRequest demoCollaborators
        { Capabilities := ["coinbasetxn"], Mode := "template", LongPollID := "",
          SigOpLimit := Tweak.int 20000, SizeLimit := Tweak.bool true, MaxVersion := 2,
          Target := "00ff", Data := "ab", WorkID := "w1" } demoWorld
      = handleGbtRequest demoCollaborators emptyGbtReq demoWorld :=
  ⟨(handleGbtRequest_template demoCollaborators emptyGbtReq demoWorld rfl).1 demoTemplate rfl,
    (handleGbtRequest_template demoCollaborators emptyGbtReq
      ⟨{ demoNode with template := none }, []⟩ rfl).2.1 rfl,
    (handleGbtRequest_template demoCollaborators emptyGbtReq demoWorld rfl).2.2.2 _ rfl⟩

/-- C10: the mining-address gate of `setMining`.  With `is_mining` true and
`GetMiningAddress` failing, the answer is the error "Mining address does not
exist" and `Start` is not called: the node is in the state `GetMiningAddress`
left and the trace gains that one call.  With `is_mining` true and an address,
`Start` is called and the answer is the success response exactly when
`IsMining()` is true after it, the error "Failed to start mining" otherwise.
With `is_mining` false, `GetMiningAddress` is not consulted, `Stop` is called
and the answer is the success response exactly when `IsMining()` is false
after it, the error "Failed to stop mining" otherwise. -/
theorem setMining_address_gate (c : Collaborators σ) (w : World σ) :
    (∀ err, (c.GetMiningAddress w.state).1 = some err →
      setMining c ⟨true⟩ w
        = (NewErrorResponse ⟨"Mining address does not exist"⟩,
            ⟨(c.GetMiningAddress w.state).2, w.trace ++ [Event.GetMiningAddress]⟩)) ∧
    ((c.GetMiningAddress w.state).1 = none →
      (setMining c ⟨true⟩ w).2.trace
        = w.trace ++ [Event.GetMiningAddress, Event.MinerStart, Event.IsMining] ∧
      ((setMining c ⟨true⟩ w).1 = NewSuccessResponse (Payload.str "") ↔
        (c.IsMining (c.MinerStart (c.GetMiningAddress w.state).2)).1 = true) ∧
      ((setMining c ⟨true⟩ w).1 = NewErrorResponse ⟨"Failed to start mining"⟩ ↔
        (c.IsMining (c.MinerStart (c.GetMiningAddress w.state).2)).1 = false)) ∧
    ((setMining c ⟨false⟩ w).2.trace = w.trace ++ [Event.MinerStop, Event.IsMining] ∧
      ((setMining c ⟨false⟩ w).1 = NewSuccessResponse (Payload.str "") ↔
        (c.IsMining (c.MinerStop w.state)).1 = false) ∧
      ((setMining c ⟨false⟩ w).1 = NewErrorResponse ⟨"Failed to stop mining"⟩ ↔
        (c.IsMining (c.MinerStop w.state)).1 = true)) := by
  refine ⟨?_, ?_, ?_, ?_, ?_⟩
  · intro err herr
    simp [setMining, callGetMiningAddress, herr]
  · intro hnone
    refine ⟨?_, ?_, ?_⟩
    · simp only [setMining, callGetMiningAddress, hnone, startMining, callMinerStart,
        callIsMining, if_true]
      split <;> simp
    · simp only [setMining, callGetMiningAddress, hnone, startMining, callMinerStart,
        callIsMining, if_true, NewSuccessResponse, NewErrorResponse]
      cases (c.IsMining (c.MinerStart (c.GetMiningAddress w.state).2)).1 <;> simp
    · simp only [setMining, callGetMiningAddress, hnone, startMining, callMinerStart,
        callIsMining, if_true, NewSuccessResponse, NewErrorResponse]
      cases (c.IsMining (c.MinerStart (c.GetMiningAddress w.state).2)).1 <;> simp
  · simp only [setMining, stopMining, callMinerStop, callIsMining]
    simp only [Bool.false_eq_true, if_false]
    split <;> simp
  · simp only [setMining, stopMining, callMinerStop, callIsMining, NewSuccessResponse,
      NewErrorResponse, Bool.false_eq_true, if_false]
    cases (c.IsMining (c.MinerStop w.state)).1 <;> simp
  · simp only [setMining, stopMining, callMinerStop, callIsMining, NewSuccessResponse,
      NewErrorResponse, Bool.false_eq_true, if_false]
    cases (c.IsMining (c.MinerStop w.state)).1 <;> simp

/-- On a node without a mining address `setMining` refuses and the miner is
not started; on the demo node it starts the miner and succeeds. -/
theorem setMining_address_gate_witness :
    setMining demoCollaborators ⟨true⟩ ⟨{ demoNode with hasAddress := false }, []⟩
      = (NewErrorResponse ⟨"Mining address does not exist"⟩,
          ⟨{ demoNode with hasAddress := false }, [Event.GetMiningAddress]⟩) ∧
    (setMining demoCollaborators ⟨true⟩ demoWorld).1 = NewSuccessResponse (Payload.str "") :=
  ⟨(setMining_address_gate demoCollaborators ⟨{ demoNode with hasAddress := false }, []⟩).1
      ⟨"address not found"⟩ rfl,
    ((setMining_address_gate demoCollaborators demoWorld).2.1 rfl).2.1.2 rfl⟩

end Miner
